import Mathlib

/-!
Shallow embedding of `src/temperature-converter/src/temperature_converter.py`.

Python floats are modelled as exact rationals (ℚ); the values appearing in
the program's bounds and in the verified scenarios are all exactly
representable at the precision the program uses, so the comparisons and
arithmetic below coincide with the Python semantics on those inputs.
Console input is a list of events (typed lines and interrupt signals),
console output is the list of printed strings (prompts included); logging
is treated as an external collaborator and not modelled.
-/

namespace TempConv

/-- Embeds the exception class `TemperatureConversionError`.  The Python
exception carries the message `f"Invalid Celsius temperature: {temp}"`
(resp. Fahrenheit); we record the offending value and the scale tag, from
which the message is rebuilt by `TemperatureConversionError.message`. -/
structure TemperatureConversionError where
  value : ℚ
  scale : String
deriving Repr, DecidableEq

/-- Embeds `TemperatureConverter.celsius_to_fahrenheit`:
`return (celsius * 9/5) + 32`. -/
def celsius_to_fahrenheit (celsius : ℚ) : ℚ :=
  celsius * 9 / 5 + 32

/-- Embeds `TemperatureConverter.fahrenheit_to_celsius`:
`return (fahrenheit - 32) * 5/9`. -/
def fahrenheit_to_celsius (fahrenheit : ℚ) : ℚ :=
  (fahrenheit - 32) * 5 / 9

/-- Embeds `TemperatureConverter.validate_temperature`.  The Python code
raises exactly when `scale == 'C' and (temp < -273.15 or temp > 1000)` or
`scale == 'F' and (temp < -459.67 or temp > 1832)`; otherwise it falls
through and returns `None`. -/
def validate_temperature (temp : ℚ) (scale : String) :
    Except TemperatureConversionError Unit :=
  if scale = "C" ∧ (temp < -273.15 ∨ temp > 1000) then
    Except.error ⟨temp, scale⟩
  else if scale = "F" ∧ (temp < -459.67 ∨ temp > 1832) then
    Except.error ⟨temp, scale⟩
  else
    Except.ok ()

/-- Renders a rational the way Python's `str` renders the corresponding
float for the values the program interpolates into messages (the scenarios
only exercise integral values, rendered `"-300.0"`-style). -/
def pyFloatRepr (q : ℚ) : String :=
  if q.den = 1 then toString q.num ++ ".0" else toString q

/-- Message of the raised exception, as interpolated by the Python source
(`f"Invalid Celsius temperature: {temp}"` / Fahrenheit). -/
def TemperatureConversionError.message (e : TemperatureConversionError) : String :=
  if e.scale = "C" then "Invalid Celsius temperature: " ++ pyFloatRepr e.value
  else "Invalid Fahrenheit temperature: " ++ pyFloatRepr e.value

/-! ### Python string/number builtins used by the shell

`str.strip`, `int(...)` and `float(...)` are CPython builtins; they are
modelled structurally on `List Char` (whitespace stripping, optional sign,
decimal digits with optional fractional part).  This subset is exactly the
behaviour the shell relies on; a parse failure models the `ValueError` the
builtins raise. -/

/-- Models `str.strip()` : drops whitespace from both ends. -/
def pyStrip (cs : List Char) : List Char :=
  ((cs.dropWhile Char.isWhitespace).reverse.dropWhile Char.isWhitespace).reverse

/-- Value of a list of decimal digits. -/
def digitsToNat (cs : List Char) : ℕ :=
  cs.foldl (fun a c => a * 10 + (c.toNat - 48)) 0

/-- A non-empty all-digit string parses as a natural number; anything else
raises `ValueError` (modelled as `none`). -/
def pyDigits? (cs : List Char) : Option ℕ :=
  if cs ≠ [] ∧ cs.all Char.isDigit then some (digitsToNat cs) else none

/-- Models `int(...)` on a stripped string: optional sign then digits. -/
def pyInt? (cs : List Char) : Option ℤ :=
  match cs with
  | '+' :: ds => (pyDigits? ds).map (fun n => (n : ℤ))
  | '-' :: ds => (pyDigits? ds).map (fun n => -(n : ℤ))
  | ds => (pyDigits? ds).map (fun n => (n : ℤ))

/-- Splits a leading run of decimal digits off a character list. -/
def splitDigits : List Char → List Char × List Char
  | [] => ([], [])
  | c :: cs =>
    if c.isDigit then
      ((splitDigits cs).1.cons c, (splitDigits cs).2)
    else ([], c :: cs)

/-- Models `float(...)` on an unsigned stripped string, returning the exact
decimal as (mantissa, number of fractional digits). -/
def pyUFloat? (ds : List Char) : Option (ℤ × ℕ) :=
  match splitDigits ds with
  | (intDs, rest) =>
    match rest with
    | [] => if intDs = [] then none else some ((digitsToNat intDs : ℤ), 0)
    | '.' :: fracDs =>
      if fracDs.all Char.isDigit ∧ (intDs ≠ [] ∨ fracDs ≠ []) then
        some (((digitsToNat intDs * 10 ^ fracDs.length + digitsToNat fracDs : ℕ) : ℤ),
          fracDs.length)
      else none
    | _ => none

/-- Models `float(...)` on a stripped string: optional sign, digits with an
optional fractional part. -/
def pyFloat? (cs : List Char) : Option (ℤ × ℕ) :=
  match cs with
  | '+' :: ds => pyUFloat? ds
  | '-' :: ds => (pyUFloat? ds).map (fun p => (-p.1, p.2))
  | ds => pyUFloat? ds

/-- The rational value of a parsed decimal (mantissa, fractional digits). -/
def pyFloatVal (p : ℤ × ℕ) : ℚ :=
  (p.1 : ℚ) / 10 ^ p.2

/-- Models Python's `f"{x:.2f}"` on an integer number of hundredths. -/
def fmtInt (n : ℤ) : String :=
  (if n < 0 then "-" else "") ++ toString (n.natAbs / 100) ++ "." ++
    (if n.natAbs % 100 < 10 then "0" else "") ++ toString (n.natAbs % 100)

/-- Models Python's `f"{x:.2f}"`: two-decimal fixed-point formatting. It is
exact on every value whose hundredths are exact, which covers all values the
verified scenarios print. -/
def format2 (q : ℚ) : String :=
  fmtInt ⌊q * 100 + 1 / 2⌋

/-! ### The interactive shell -/

/-- A console input event: a typed line, or a Ctrl-C.  `ctrlC` is an
interrupt delivered while a prompt is waiting for input (raised inside an
input sub-loop); `ctrlCOuter` is an interrupt delivered between prompts, at
the top of the main loop (raised at the outer loop level). -/
inductive InEv where
  | line (s : String)
  | ctrlC
  | ctrlCOuter
deriving Repr, DecidableEq

/-- The exceptions that cross function boundaries in the source: `EOFError`
(input exhausted), `KeyboardInterrupt`, and `TemperatureConversionError`. -/
inductive PyExc where
  | eof
  | keyboard
  | tempError (e : TemperatureConversionError)
deriving Repr, DecidableEq

/-- Result of a shell fragment: a value with the remaining input and the
output printed, a `sys.exit(code)` (which, as `SystemExit`, propagates past
every handler in the source), or a propagating exception. -/
inductive Ctl (α : Type) where
  | ok (a : α) (rest : List InEv) (out : List String)
  | exit (code : ℕ) (out : List String)
  | exc (e : PyExc) (rest : List InEv) (out : List String)
deriving Repr, DecidableEq

/-- Prepends already-printed output to a fragment result. -/
def Ctl.withOut {α : Type} (pre : List String) : Ctl α → Ctl α
  | .ok a r o => .ok a r (pre ++ o)
  | .exit c o => .exit c (pre ++ o)
  | .exc e r o => .exc e r (pre ++ o)

/-- The four lines printed by `display_menu`. -/
def menuLines : List String :=
  ["\n--- Temperature Converter ---", "1. Celsius to Fahrenheit",
   "2. Fahrenheit to Celsius", "3. Exit"]

/-- Prompt of `get_valid_menu_choice`. -/
def menuPrompt : String := "Enter your choice (1-3): "

/-- Printed for an in-range parse failure in the menu loop. -/
def invalidChoiceMsg : String := "Invalid choice. Please select 1, 2, or 3."

/-- Printed for a `ValueError` in the menu loop. -/
def menuNumErrMsg : String := "Error: Please enter a number between 1 and 3."

/-- Printed for a `ValueError` in the numeric-input loop. -/
def numErrMsg : String := "Error: Please enter a valid number."

/-- Printed when a prompt is interrupted. -/
def cancelMsg : String := "\nOperation cancelled."

/-- Printed on menu choice 3. -/
def goodbyeMsg : String := "Thank you for using Temperature Converter. Goodbye!"

/-- Printed by `run`'s outer `KeyboardInterrupt` handler. -/
def terminatedMsg : String := "\nApplication terminated by user."

/-- Prompt for choice 1. -/
def celsiusPrompt : String := "Enter temperature in Celsius: "

/-- Prompt for choice 2. -/
def fahrenheitPrompt : String := "Enter temperature in Fahrenheit: "

/-- Result line printed for choice 1: `f"{celsius:.2f}°C = {fahrenheit:.2f}°F"`. -/
def resultLineC (c : ℚ) : String :=
  format2 c ++ "°C = " ++ format2 (celsius_to_fahrenheit c) ++ "°F"

/-- Result line printed for choice 2: `f"{fahrenheit:.2f}°F = {celsius:.2f}°C"`. -/
def resultLineF (f : ℚ) : String :=
  format2 f ++ "°F = " ++ format2 (fahrenheit_to_celsius f) ++ "°C"

/-- Line printed by the loop-level `except TemperatureConversionError`. -/
def convErrLine (e : TemperatureConversionError) : String :=
  "Conversion Error: " ++ e.message

/-- Line printed by the loop-level `except Exception` when the numeric
prompt hits end of input (`str(EOFError())` from `input()`). -/
def unexpectedEofLine : String :=
  "An unexpected error occurred: EOF when reading a line"

/-- Embeds `TemperatureConverterApp.get_valid_menu_choice`: loop reading
`int(input("Enter your choice (1-3): ").strip())`; returns on a value in
1..3, re-prompts otherwise, exits with status 1 on `KeyboardInterrupt`,
propagates `EOFError` when input is exhausted. -/
def get_valid_menu_choice : List InEv → Ctl ℤ
  | [] => .exc .eof [] [menuPrompt]
  | InEv.line s :: rest =>
    match pyInt? (pyStrip s.data) with
    | some c =>
      if 1 ≤ c ∧ c ≤ 3 then .ok c rest [menuPrompt]
      else (get_valid_menu_choice rest).withOut [menuPrompt, invalidChoiceMsg]
    | none => (get_valid_menu_choice rest).withOut [menuPrompt, menuNumErrMsg]
  | InEv.ctrlC :: _ => .exit 1 [menuPrompt, cancelMsg]
  | InEv.ctrlCOuter :: _ => .exit 1 [menuPrompt, cancelMsg]

/-- Embeds `TemperatureConverterApp.get_valid_numeric_input`: loop reading
`float(input(prompt).strip())`; re-prompts on `ValueError`, exits with
status 1 on `KeyboardInterrupt`, propagates `EOFError`. -/
def get_valid_numeric_input (prompt : String) : List InEv → Ctl ℚ
  | [] => .exc .eof [] [prompt]
  | InEv.line s :: rest =>
    match pyFloat? (pyStrip s.data) with
    | some v => .ok (pyFloatVal v) rest [prompt]
    | none => (get_valid_numeric_input prompt rest).withOut [prompt, numErrMsg]
  | InEv.ctrlC :: _ => .exit 1 [prompt, cancelMsg]
  | InEv.ctrlCOuter :: _ => .exit 1 [prompt, cancelMsg]

/-- Body of the inner `try` of `run` for a given menu choice: read a value,
validate it, convert and print; a raised `TemperatureConversionError`
propagates out as an exception (to be caught by the loop-level handler). -/
def convert_choice (choice : ℤ) (inp : List InEv) : Ctl Unit :=
  if choice = 1 then
    match get_valid_numeric_input celsiusPrompt inp with
    | .ok c rest o =>
      match validate_temperature c "C" with
      | .error e => .exc (.tempError e) rest o
      | .ok () => .ok () rest (o ++ [resultLineC c])
    | .exit code o => .exit code o
    | .exc e r o => .exc e r o
  else if choice = 2 then
    match get_valid_numeric_input fahrenheitPrompt inp with
    | .ok f rest o =>
      match validate_temperature f "F" with
      | .error e => .exc (.tempError e) rest o
      | .ok () => .ok () rest (o ++ [resultLineF f])
    | .exit code o => .exit code o
    | .exc e r o => .exc e r o
  else .ok () inp []

/-- Embeds the `while True` loop of `TemperatureConverterApp.run`.  Each
iteration prints the menu, reads a choice, and either terminates (choice 3)
or converts; the loop-level handlers catch `TemperatureConversionError` and
other `Exception`s (notably `EOFError`) and continue, while `SystemExit`
and `KeyboardInterrupt` propagate.  A `ctrlCOuter` event at the top of an
iteration models a Ctrl-C delivered between prompts.  `fuel` bounds the
number of iterations; `run` passes `inp.length + 1`, which is sufficient
since every iteration that loops again consumes at least one input event. -/
def run_loop : ℕ → List InEv → Ctl Unit
  | 0, inp => Ctl.exc PyExc.eof inp []
  | fuel + 1, inp =>
    match inp with
    | InEv.ctrlCOuter :: rest => Ctl.exc PyExc.keyboard rest []
    | _ =>
      match get_valid_menu_choice inp with
      | Ctl.ok choice rest o =>
        if choice = 3 then Ctl.ok () rest (menuLines ++ o ++ [goodbyeMsg])
        else
          match convert_choice choice rest with
          | Ctl.ok _ rest2 o2 =>
            (run_loop fuel rest2).withOut (menuLines ++ o ++ o2)
          | Ctl.exit c o2 => Ctl.exit c (menuLines ++ o ++ o2)
          | Ctl.exc (PyExc.tempError e) rest2 o2 =>
            (run_loop fuel rest2).withOut (menuLines ++ o ++ o2 ++ [convErrLine e])
          | Ctl.exc PyExc.eof rest2 o2 =>
            (run_loop fuel rest2).withOut (menuLines ++ o ++ o2 ++ [unexpectedEofLine])
          | Ctl.exc PyExc.keyboard rest2 o2 =>
            Ctl.exc PyExc.keyboard rest2 (menuLines ++ o ++ o2)
      | Ctl.exit c o => Ctl.exit c (menuLines ++ o)
      | Ctl.exc e rest o => Ctl.exc e rest (menuLines ++ o)

/-- Embeds `TemperatureConverterApp.run`: the loop wrapped in
`except KeyboardInterrupt`, which prints a farewell and calls
`sys.exit(0)`. -/
def run (inp : List InEv) : Ctl Unit :=
  match run_loop (inp.length + 1) inp with
  | Ctl.exc PyExc.keyboard _ o => Ctl.exit 0 (o ++ [terminatedMsg])
  | r => r

/-- Final observable outcome of a process run: printed output and exit
status. -/
structure ShellResult where
  out : List String
  code : ℕ
deriving Repr, DecidableEq

/-- Embeds `main`: a normal return from `run` ends the process with status
0; `sys.exit(code)` ends it with `code`; any `Exception` escaping `run`
(e.g. `EOFError` at the menu prompt) is caught, logged critically, and the
process exits with status 1. -/
def main (inp : List InEv) : ShellResult :=
  match run inp with
  | Ctl.ok _ _ o => ⟨o, 0⟩
  | Ctl.exit c o => ⟨o, c⟩
  | Ctl.exc _ _ o => ⟨o, 1⟩

/-- Boolean subsequence test: `subseq pat l` holds when the strings of
`pat` occur in `l` in order (not necessarily adjacent). -/
def subseq : List String → List String → Bool
  | [], _ => true
  | _ :: _, [] => false
  | x :: xs, y :: ys => if x = y then subseq xs ys else subseq (x :: xs) ys

/-- One entry of the menu loop that is skipped: the entry is re-prompted
for, printing the prompt and the matching error message
(`ValueError` message for a non-numeric entry, "Invalid choice" for a
numeric entry outside 1..3). -/
def menuSkip (e : InEv) : List String :=
  match e with
  | InEv.line s =>
    match pyInt? (pyStrip s.data) with
    | some _ => [menuPrompt, invalidChoiceMsg]
    | none => [menuPrompt, menuNumErrMsg]
  | _ => []

/-- Output printed while the menu loop skips a list of rejected entries. -/
def menuSkipAll : List InEv → List String
  | [] => []
  | e :: es => menuSkip e ++ menuSkipAll es

/-- A typed menu entry the menu loop rejects: it either fails to parse as
an integer or parses outside {1, 2, 3}. -/
def invalidMenuEntry (e : InEv) : Prop :=
  ∃ s, e = InEv.line s ∧
    ∀ c, pyInt? (pyStrip s.data) = some c → ¬(1 ≤ c ∧ c ≤ 3)

/-! ### Theorems -/

/-- The two guards of `validate_temperature`, specialised to scale `"C"`. -/
lemma validate_C (t : ℚ) :
    validate_temperature t "C" =
      if t < -273.15 ∨ t > 1000 then Except.error ⟨t, "C"⟩ else Except.ok () := by
  unfold validate_temperature
  by_cases hc : t < -273.15 ∨ t > 1000 <;> simp [hc]

/-- The two guards of `validate_temperature`, specialised to scale `"F"`. -/
lemma validate_F (t : ℚ) :
    validate_temperature t "F" =
      if t < -459.67 ∨ t > 1832 then Except.error ⟨t, "F"⟩ else Except.ok () := by
  unfold validate_temperature
  by_cases hf : t < -459.67 ∨ t > 1832 <;> simp [hf]

/-- C2: both conversions compute the spec's linear formulas, and hit the
anchor points 0↦32, 100↦212, -40↦-40, 32↦0, 212↦100. -/
theorem conversions_formulas_and_anchors :
    (∀ c : ℚ, celsius_to_fahrenheit c = c * 9 / 5 + 32) ∧
    (∀ f : ℚ, fahrenheit_to_celsius f = (f - 32) * 5 / 9) ∧
    celsius_to_fahrenheit 0 = 32 ∧
    celsius_to_fahrenheit 100 = 212 ∧
    celsius_to_fahrenheit (-40) = -40 ∧
    fahrenheit_to_celsius 32 = 0 ∧
    fahrenheit_to_celsius 212 = 100 := by
  refine ⟨fun c => rfl, fun f => rfl, ?_, ?_, ?_, ?_, ?_⟩ <;>
    norm_num [celsius_to_fahrenheit, fahrenheit_to_celsius]

/-- C3: round-trip law, exactly over the rationals: converting Celsius to
Fahrenheit and back is the identity. -/
theorem roundtrip_c_to_f_to_c (c : ℚ) :
    fahrenheit_to_celsius (celsius_to_fahrenheit c) = c := by
  unfold fahrenheit_to_celsius celsius_to_fahrenheit
  ring

/-- C9: reverse round-trip: converting Fahrenheit to Celsius and back is
also the identity, so the two conversions are mutually inverse bijections. -/
theorem roundtrip_f_to_c_to_f (f : ℚ) :
    celsius_to_fahrenheit (fahrenheit_to_celsius f) = f := by
  unfold fahrenheit_to_celsius celsius_to_fahrenheit
  ring

/-- C1: `validate_temperature` raises (with the offending value and scale)
exactly outside the closed intervals `[-273.15, 1000]` (Celsius) and
`[-459.67, 1832]` (Fahrenheit), and accepts silently exactly inside them,
endpoints included. -/
theorem validate_temperature_ranges (t : ℚ) :
    (validate_temperature t "C" = Except.error ⟨t, "C"⟩ ↔
      (t < -273.15 ∨ t > 1000)) ∧
    (validate_temperature t "C" = Except.ok () ↔
      (-273.15 ≤ t ∧ t ≤ 1000)) ∧
    (validate_temperature t "F" = Except.error ⟨t, "F"⟩ ↔
      (t < -459.67 ∨ t > 1832)) ∧
    (validate_temperature t "F" = Except.ok () ↔
      (-459.67 ≤ t ∧ t ≤ 1832)) := by
  refine ⟨?_, ?_, ?_, ?_⟩
  · rw [validate_C]
    by_cases hc : t < -273.15 ∨ t > 1000 <;> simp [hc]
  · rw [validate_C]
    by_cases hc : t < -273.15 ∨ t > 1000 <;> simp [hc]
    · intro h1
      rcases hc with h | h
      · exact absurd h (not_lt.mpr h1)
      · exact h
    · push_neg at hc
      exact hc
  · rw [validate_F]
    by_cases hf : t < -459.67 ∨ t > 1832 <;> simp [hf]
  · rw [validate_F]
    by_cases hf : t < -459.67 ∨ t > 1832 <;> simp [hf]
    · intro h1
      rcases hf with h | h
      · exact absurd h (not_lt.mpr h1)
      · exact h
    · push_neg at hf
      exact hf

/-- C10: `validate_temperature` never raises for any scale argument other
than exactly `"C"` or `"F"`: both guards fail, so the call falls through
and succeeds silently, whatever the value. -/
theorem validate_temperature_unknown_scale (t : ℚ) (scale : String)
    (hC : scale ≠ "C") (hF : scale ≠ "F") :
    validate_temperature t scale = Except.ok () := by
  simp [validate_temperature, hC, hF]

/-- Witness for C10 at a concrete unknown scale and a huge value. -/
theorem validate_temperature_unknown_scale_witness :
    validate_temperature 2000000 "K" = Except.ok () :=
  validate_temperature_unknown_scale 2000000 "K" (by decide) (by decide)

/-! ### Evaluation lemmas for the shell scenarios -/

lemma menu1 (rest : List InEv) :
    get_valid_menu_choice (InEv.line "1" :: rest) = Ctl.ok 1 rest [menuPrompt] := rfl

lemma menu3 (rest : List InEv) :
    get_valid_menu_choice (InEv.line "3" :: rest) = Ctl.ok 3 rest [menuPrompt] := rfl

lemma menu_abc_dash_2 (rest : List InEv) :
    get_valid_menu_choice (InEv.line "abc" :: InEv.line "-" :: InEv.line "2" :: rest) =
      Ctl.ok 2 rest
        [menuPrompt, menuNumErrMsg, menuPrompt, menuNumErrMsg, menuPrompt] := rfl

lemma menu_ctrlC (rest : List InEv) :
    get_valid_menu_choice (InEv.ctrlC :: rest) = Ctl.exit 1 [menuPrompt, cancelMsg] := rfl

lemma num25 (rest : List InEv) :
    get_valid_numeric_input celsiusPrompt (InEv.line "25" :: rest) =
      Ctl.ok (pyFloatVal (25, 0)) rest [celsiusPrompt] := rfl

lemma num300neg (rest : List InEv) :
    get_valid_numeric_input celsiusPrompt (InEv.line "-300" :: rest) =
      Ctl.ok (pyFloatVal (-300, 0)) rest [celsiusPrompt] := rfl

lemma num986 (rest : List InEv) :
    get_valid_numeric_input fahrenheitPrompt (InEv.line "98.6" :: rest) =
      Ctl.ok (pyFloatVal (986, 1)) rest [fahrenheitPrompt] := rfl

lemma num_ctrlC (rest : List InEv) :
    get_valid_numeric_input celsiusPrompt (InEv.ctrlC :: rest) =
      Ctl.exit 1 [celsiusPrompt, cancelMsg] := rfl

lemma val25ok : validate_temperature (pyFloatVal (25, 0)) "C" = Except.ok () := by
  rw [validate_C]
  norm_num [pyFloatVal]

lemma val300err : validate_temperature (pyFloatVal (-300, 0)) "C" =
    Except.error ⟨pyFloatVal (-300, 0), "C"⟩ := by
  rw [validate_C]
  norm_num [pyFloatVal]

lemma val986ok : validate_temperature (pyFloatVal (986, 1)) "F" = Except.ok () := by
  rw [validate_F]
  norm_num [pyFloatVal]

lemma res25 : resultLineC (pyFloatVal (25, 0)) = "25.00°C = 77.00°F" := by
  have h1 : format2 (pyFloatVal (25, 0)) = "25.00" := by
    have h : ⌊pyFloatVal (25, 0) * 100 + 1 / 2⌋ = (2500 : ℤ) := by norm_num [pyFloatVal]
    unfold format2
    rw [h]
    decide
  have h2 : format2 (celsius_to_fahrenheit (pyFloatVal (25, 0))) = "77.00" := by
    have h : ⌊celsius_to_fahrenheit (pyFloatVal (25, 0)) * 100 + 1 / 2⌋ = (7700 : ℤ) := by
      norm_num [pyFloatVal, celsius_to_fahrenheit]
    unfold format2
    rw [h]
    decide
  unfold resultLineC
  rw [h1, h2]
  rfl

lemma res986 : resultLineF (pyFloatVal (986, 1)) = "98.60°F = 37.00°C" := by
  have h1 : format2 (pyFloatVal (986, 1)) = "98.60" := by
    have h : ⌊pyFloatVal (986, 1) * 100 + 1 / 2⌋ = (9860 : ℤ) := by norm_num [pyFloatVal]
    unfold format2
    rw [h]
    decide
  have h2 : format2 (fahrenheit_to_celsius (pyFloatVal (986, 1))) = "37.00" := by
    have h : ⌊fahrenheit_to_celsius (pyFloatVal (986, 1)) * 100 + 1 / 2⌋ = (3700 : ℤ) := by
      norm_num [pyFloatVal, fahrenheit_to_celsius]
    unfold format2
    rw [h]
    decide
  unfold resultLineF
  rw [h1, h2]
  rfl

lemma errline300 : convErrLine ⟨pyFloatVal (-300, 0), "C"⟩ =
    "Conversion Error: Invalid Celsius temperature: -300.0" := by
  have hrepr : pyFloatRepr (pyFloatVal (-300, 0)) = "-300.0" := by
    have hv : pyFloatVal (-300, 0) = ((-300 : ℚ)) := by norm_num [pyFloatVal]
    rw [hv, pyFloatRepr, if_pos (by norm_num), show ((-300 : ℚ)).num = -300 by norm_num]
    decide
  unfold convErrLine TemperatureConversionError.message
  simp [hrepr]

lemma conv25 : convert_choice 1 [InEv.line "25", InEv.line "3"] =
    Ctl.ok () [InEv.line "3"] [celsiusPrompt, "25.00°C = 77.00°F"] := by
  simp [convert_choice, num25, val25ok, res25]

lemma conv300 : convert_choice 1 [InEv.line "-300", InEv.line "3"] =
    Ctl.exc (PyExc.tempError ⟨pyFloatVal (-300, 0), "C"⟩) [InEv.line "3"] [celsiusPrompt] := by
  simp [convert_choice, num300neg, val300err]

lemma conv986 : convert_choice 2 [InEv.line "98.6", InEv.line "3"] =
    Ctl.ok () [InEv.line "3"] [fahrenheitPrompt, "98.60°F = 37.00°C"] := by
  simp [convert_choice, num986, val986ok, res986]

lemma main_1_25_3 : main [InEv.line "1", InEv.line "25", InEv.line "3"] =
    ⟨["\n--- Temperature Converter ---", "1. Celsius to Fahrenheit",
      "2. Fahrenheit to Celsius", "3. Exit", "Enter your choice (1-3): ",
      "Enter temperature in Celsius: ", "25.00°C = 77.00°F",
      "\n--- Temperature Converter ---", "1. Celsius to Fahrenheit",
      "2. Fahrenheit to Celsius", "3. Exit", "Enter your choice (1-3): ",
      "Thank you for using Temperature Converter. Goodbye!"], 0⟩ := by
  simp [main, run, run_loop, menu1, menu3, conv25, Ctl.withOut, menuLines,
    menuPrompt, celsiusPrompt, goodbyeMsg]

lemma main_1_m300_3 : main [InEv.line "1", InEv.line "-300", InEv.line "3"] =
    ⟨["\n--- Temperature Converter ---", "1. Celsius to Fahrenheit",
      "2. Fahrenheit to Celsius", "3. Exit", "Enter your choice (1-3): ",
      "Enter temperature in Celsius: ",
      "Conversion Error: Invalid Celsius temperature: -300.0",
      "\n--- Temperature Converter ---", "1. Celsius to Fahrenheit",
      "2. Fahrenheit to Celsius", "3. Exit", "Enter your choice (1-3): ",
      "Thank you for using Temperature Converter. Goodbye!"], 0⟩ := by
  simp [main, run, run_loop, menu1, menu3, conv300, errline300, Ctl.withOut,
    menuLines, menuPrompt, celsiusPrompt, goodbyeMsg]

lemma main_abc_dash : main [InEv.line "abc", InEv.line "-", InEv.line "2",
      InEv.line "98.6", InEv.line "3"] =
    ⟨["\n--- Temperature Converter ---", "1. Celsius to Fahrenheit",
      "2. Fahrenheit to Celsius", "3. Exit", "Enter your choice (1-3): ",
      "Error: Please enter a number between 1 and 3.", "Enter your choice (1-3): ",
      "Error: Please enter a number between 1 and 3.", "Enter your choice (1-3): ",
      "Enter temperature in Fahrenheit: ", "98.60°F = 37.00°C",
      "\n--- Temperature Converter ---", "1. Celsius to Fahrenheit",
      "2. Fahrenheit to Celsius", "3. Exit", "Enter your choice (1-3): ",
      "Thank you for using Temperature Converter. Goodbye!"], 0⟩ := by
  simp [main, run, run_loop, menu_abc_dash_2, menu3, conv986, Ctl.withOut,
    menuLines, menuPrompt, menuNumErrMsg, fahrenheitPrompt, goodbyeMsg]

/-! ### Shell claims -/

/-- C4: running the shell on the input lines `["1", "25", "3"]` prints the
line `25.00°C = 77.00°F`, later the goodbye message, and the process exits
normally with status 0. -/
theorem shell_scenario_1_25_3 :
    subseq ["25.00°C = 77.00°F", "Thank you for using Temperature Converter. Goodbye!"]
        (main [InEv.line "1", InEv.line "25", InEv.line "3"]).out = true ∧
    (main [InEv.line "1", InEv.line "25", InEv.line "3"]).code = 0 := by
  rw [main_1_25_3]
  exact ⟨by decide, rfl⟩

/-- C5: requesting a Celsius conversion with the out-of-range value `-300`
prints the range error, prints no conversion line for that value, shows the
menu and its prompt again, and the run still terminates cleanly (no crash):
the loop continued after the validation failure. -/
theorem shell_scenario_range_error :
    subseq ["Conversion Error: Invalid Celsius temperature: -300.0",
        "\n--- Temperature Converter ---", "Enter your choice (1-3): ",
        "Thank you for using Temperature Converter. Goodbye!"]
        (main [InEv.line "1", InEv.line "-300", InEv.line "3"]).out = true ∧
    "-300.00°C = -508.00°F" ∉
        (main [InEv.line "1", InEv.line "-300", InEv.line "3"]).out ∧
    (∀ s ∈ (main [InEv.line "1", InEv.line "-300", InEv.line "3"]).out,
        s ≠ resultLineC (pyFloatVal (-300, 0))) ∧
    (main [InEv.line "1", InEv.line "-300", InEv.line "3"]).code = 0 := by
  rw [main_1_m300_3]
  refine ⟨by decide, by decide, ?_, rfl⟩
  have hres : resultLineC (pyFloatVal (-300, 0)) = "-300.00°C = -508.00°F" := by
    have h1 : format2 (pyFloatVal (-300, 0)) = "-300.00" := by
      have h : ⌊pyFloatVal (-300, 0) * 100 + 1 / 2⌋ = (-30000 : ℤ) := by
        norm_num [pyFloatVal]
      unfold format2
      rw [h]
      decide
    have h2 : format2 (celsius_to_fahrenheit (pyFloatVal (-300, 0))) = "-508.00" := by
      have h : ⌊celsius_to_fahrenheit (pyFloatVal (-300, 0)) * 100 + 1 / 2⌋ =
          (-50800 : ℤ) := by
        norm_num [pyFloatVal, celsius_to_fahrenheit]
      unfold format2
      rw [h]
      decide
    unfold resultLineC
    rw [h1, h2]
    rfl
  rw [hres]
  decide

/-- C6: running the shell on `["abc", "-", "2", "98.6", "3"]` re-prompts
past the two invalid menu entries (printing the menu prompt three times,
with an error message after each rejected entry), prints the conversion
line `98.60°F = 37.00°C`, and exits through the goodbye path with status 0. -/
theorem shell_scenario_recovery :
    subseq ["Enter your choice (1-3): ", "Error: Please enter a number between 1 and 3.",
        "Enter your choice (1-3): ", "Error: Please enter a number between 1 and 3.",
        "Enter your choice (1-3): ", "98.60°F = 37.00°C",
        "Thank you for using Temperature Converter. Goodbye!"]
        (main [InEv.line "abc", InEv.line "-", InEv.line "2",
          InEv.line "98.6", InEv.line "3"]).out = true ∧
    (main [InEv.line "abc", InEv.line "-", InEv.line "2",
        InEv.line "98.6", InEv.line "3"]).code = 0 := by
  rw [main_abc_dash]
  exact ⟨by decide, rfl⟩

/-- C7: `get_valid_menu_choice` only ever returns a choice in {1, 2, 3};
and on any stream that starts with rejected entries (non-numeric or outside
{1,2,3}) followed by an entry parsing to a choice in range, it skips each
rejected entry with a re-prompt and returns that first valid choice, with
the input consumed up to and including it. -/
theorem menu_choice_returns_first_valid :
    (∀ inp c rest out, get_valid_menu_choice inp = Ctl.ok c rest out →
      c = 1 ∨ c = 2 ∨ c = 3) ∧
    (∀ pre s c rest, (∀ e ∈ pre, invalidMenuEntry e) →
      pyInt? (pyStrip s.data) = some c → 1 ≤ c → c ≤ 3 →
      get_valid_menu_choice (pre ++ InEv.line s :: rest) =
        Ctl.ok c rest (menuSkipAll pre ++ [menuPrompt])) := by
  constructor
  · intro inp
    induction inp with
    | nil =>
      intro c rest out h
      simp [get_valid_menu_choice] at h
    | cons e es ih =>
      intro c rest out h
      cases e with
      | line s =>
        cases hcase : pyInt? (pyStrip s.data) with
        | none =>
          simp only [get_valid_menu_choice, hcase] at h
          cases hrec : get_valid_menu_choice es with
          | ok c2 r2 o2 =>
            rw [hrec] at h
            simp [Ctl.withOut] at h
            exact h.1 ▸ ih c2 r2 o2 hrec
          | exit c2 o2 =>
            rw [hrec] at h
            simp [Ctl.withOut] at h
          | exc e2 r2 o2 =>
            rw [hrec] at h
            simp [Ctl.withOut] at h
        | some c0 =>
          by_cases hr : 1 ≤ c0 ∧ c0 ≤ 3
          · simp only [get_valid_menu_choice, hcase, if_pos hr] at h
            simp at h
            obtain ⟨rfl, -, -⟩ := h
            omega
          · simp only [get_valid_menu_choice, hcase, if_neg hr] at h
            cases hrec : get_valid_menu_choice es with
            | ok c2 r2 o2 =>
              rw [hrec] at h
              simp [Ctl.withOut] at h
              exact h.1 ▸ ih c2 r2 o2 hrec
            | exit c2 o2 =>
              rw [hrec] at h
              simp [Ctl.withOut] at h
            | exc e2 r2 o2 =>
              rw [hrec] at h
              simp [Ctl.withOut] at h
      | ctrlC =>
        simp [get_valid_menu_choice] at h
      | ctrlCOuter =>
        simp [get_valid_menu_choice] at h
  · intro pre
    induction pre with
    | nil =>
      intro s c rest hpre hparse h1 h3
      simp [get_valid_menu_choice, hparse, h1, h3, menuSkipAll]
    | cons e pre ih =>
      intro s c rest hpre hparse h1 h3
      obtain ⟨s0, rfl, hinv⟩ := hpre e (List.mem_cons_self e pre)
      have hpre2 : ∀ x ∈ pre, invalidMenuEntry x :=
        fun x hx => hpre x (List.mem_cons_of_mem _ hx)
      have hrec := ih s c rest hpre2 hparse h1 h3
      cases hcase : pyInt? (pyStrip s0.data) with
      | none =>
        simp [get_valid_menu_choice, hcase, hrec, Ctl.withOut, menuSkipAll, menuSkip]
      | some c0 =>
        have hnr : ¬(1 ≤ c0 ∧ c0 ≤ 3) := hinv c0 hcase
        simp [get_valid_menu_choice, hcase, hnr, hrec, Ctl.withOut, menuSkipAll, menuSkip]

/-- Witness for C7: the stream `["abc", "5", "2", ...]` skips the
non-numeric entry and the out-of-range entry and returns 2, which is in
{1, 2, 3}. -/
theorem menu_choice_returns_first_valid_witness :
    get_valid_menu_choice [InEv.line "abc", InEv.line "5", InEv.line "2"] =
      Ctl.ok 2 []
        [menuPrompt, menuNumErrMsg, menuPrompt, invalidChoiceMsg, menuPrompt] ∧
    ((2 : ℤ) = 1 ∨ (2 : ℤ) = 2 ∨ (2 : ℤ) = 3) := by
  constructor
  · have hpre : ∀ e ∈ [InEv.line "abc", InEv.line "5"], invalidMenuEntry e := by
      intro e he
      simp only [List.mem_cons, List.not_mem_nil, or_false] at he
      rcases he with rfl | rfl
      · refine ⟨"abc", rfl, ?_⟩
        intro c hc
        rw [show pyInt? (pyStrip "abc".data) = none from rfl] at hc
        exact absurd hc (by simp)
      · refine ⟨"5", rfl, ?_⟩
        intro c hc
        rw [show pyInt? (pyStrip "5".data) = some 5 from rfl] at hc
        obtain rfl : (5 : ℤ) = c := Option.some.inj hc
        decide
    have h := menu_choice_returns_first_valid.2 [InEv.line "abc", InEv.line "5"]
      "2" 2 [] hpre (by decide) (by decide) (by decide)
    simpa [menuSkipAll, menuSkip] using h
  · exact menu_choice_returns_first_valid.1
      [InEv.line "abc", InEv.line "5", InEv.line "2"] 2 []
      [menuPrompt, menuNumErrMsg, menuPrompt, invalidChoiceMsg, menuPrompt] (by rfl)

/-- C8: exit-code policy.  Choice 3 ends the process with status 0; an
interrupt delivered at the outer loop level ends it with status 0; an
interrupt during the menu prompt or during the numeric prompt ends it with
status 1; and an unhandled error escaping the loop (end of input at the
menu prompt, an `EOFError`) ends it with status 1 through `main`'s
top-level handler. -/
theorem exit_code_policy :
    (∀ rest : List InEv, (main (InEv.line "3" :: rest)).code = 0) ∧
    (∀ rest : List InEv, (main (InEv.ctrlCOuter :: rest)).code = 0) ∧
    (∀ rest : List InEv, (main (InEv.ctrlC :: rest)).code = 1) ∧
    (∀ rest : List InEv, (main (InEv.line "1" :: InEv.ctrlC :: rest)).code = 1) ∧
    (main []).code = 1 := by
  refine ⟨?_, ?_, ?_, ?_, ?_⟩
  · intro rest
    simp [main, run, List.length_cons, run_loop, menu3]
  · intro rest
    simp [main, run, List.length_cons, run_loop]
  · intro rest
    simp [main, run, List.length_cons, run_loop, menu_ctrlC]
  · intro rest
    simp [main, run, List.length_cons, run_loop, menu1, convert_choice, num_ctrlC]
  · simp [main, run, run_loop, get_valid_menu_choice]

end TempConv
